import Mathlib

/-!
Verification of the ESB Smart Meter Home Assistant integration.

This file gives a shallow embedding, in Lean 4, of the parts of the
integration that its specification makes checkable claims about:

* `custom_components/esb_smart_meter/circuit_breaker.py` (`CircuitBreaker`)
* `custom_components/esb_smart_meter/api_client.py` (`ESBDataApi.__login`
  step 3, `ESBDataApi.__fetch_data`, `ESBDataApi.fetch`)
* `custom_components/esb_smart_meter/session_manager.py`
  (`SessionManager.load_session`, `SessionManager._is_session_valid`)
* `custom_components/esb_smart_meter/models.py` (`ESBData`)
* `custom_components/esb_smart_meter/coordinator.py` (exception dispatch in
  `ESBDataUpdateCoordinator._async_update_data`)

Times are modelled as `Int` seconds; `datetime.date()` becomes flooring
division by 86400.  Python `datetime`/`float` parsing from the standard
library is modelled by explicit parse parameters (`String → Option Int`,
`String → Option ℚ`), and exceptions are modelled with `Except`/`Option`.
-/

/-! ## Constants (`const.py`) -/

def CIRCUIT_BREAKER_FAILURES : Nat := 3

def CIRCUIT_BREAKER_TIMEOUT : Int := 1800

def CIRCUIT_BREAKER_MAX_TIMEOUT : Int := 43200

def MAX_AUTH_ATTEMPTS_PER_DAY : Nat := 3

def MAX_CSV_SIZE_MB : Nat := 10

def MAX_DATA_AGE_DAYS : Nat := 90

/-! ## Circuit breaker (`circuit_breaker.py`)

The Home Assistant notification plumbing (`_hass`, `_mprn`,
`_notification_sent`, the two `async` notification helpers) only performs
external service calls and never feeds back into the breaker decisions, so
it is left out of the state. -/

/-- Python `datetime.date()` comparison, with time as seconds: the calendar day. -/
def pyDate (t : Int) : Int := t.fdiv 86400

structure CircuitBreaker where
  failure_count : Nat
  last_failure_time : Option Int
  daily_attempts : Nat
  daily_attempts_reset_time : Option Int
  is_open : Bool
deriving DecidableEq, Repr

/-- State produced by `CircuitBreaker.__init__`. -/
def initCircuitBreaker : CircuitBreaker :=
  { failure_count := 0
    last_failure_time := none
    daily_attempts := 0
    daily_attempts_reset_time := none
    is_open := false }

/-- The exponential backoff window computed inside `can_attempt` and
`record_failure`:
`min(CIRCUIT_BREAKER_TIMEOUT * (2 ** (failure_count - 1)), CIRCUIT_BREAKER_MAX_TIMEOUT)`.
Both call sites only evaluate it with `failure_count ≥ 3`. -/
def backoff_time (failure_count : Nat) : Int :=
  min (CIRCUIT_BREAKER_TIMEOUT * 2 ^ (failure_count - 1)) CIRCUIT_BREAKER_MAX_TIMEOUT

/-- First block of `can_attempt`: reset the daily counter if this is the
first check ever or a new calendar day has started. -/
def daily_reset (cb : CircuitBreaker) (now : Int) : CircuitBreaker :=
  match cb.daily_attempts_reset_time with
  | none => { cb with daily_attempts := 0, daily_attempts_reset_time := some now }
  | some r =>
    if pyDate r < pyDate now then
      { cb with daily_attempts := 0, daily_attempts_reset_time := some now }
    else cb

/-- Rest of `can_attempt` after the daily reset: the daily-limit check and
the open-circuit backoff check. -/
def can_attempt_gate (cb1 : CircuitBreaker) (now : Int) : Bool × CircuitBreaker :=
  if MAX_AUTH_ATTEMPTS_PER_DAY ≤ cb1.daily_attempts then (false, cb1)
  else if cb1.is_open then
    match cb1.last_failure_time with
    | some lf =>
      if now - lf < backoff_time cb1.failure_count then (false, cb1)
      else (true, { cb1 with is_open := false })
    | none => (true, cb1)
  else (true, cb1)

/-- Model of `CircuitBreaker.can_attempt`, returning the Python return value together
with the mutated state. -/
def can_attempt (cb : CircuitBreaker) (now : Int) : Bool × CircuitBreaker :=
  can_attempt_gate (daily_reset cb now) now

/-- Model of `CircuitBreaker.record_success`. -/
def record_success (cb : CircuitBreaker) : CircuitBreaker :=
  { cb with failure_count := 0, is_open := false, daily_attempts := cb.daily_attempts + 1 }

/-- Model of `CircuitBreaker.record_failure`, with `datetime.now()` passed in as `now`.
The incremented count is compared with the threshold; past it the circuit
opens (the notification side effects are external and omitted). -/
def record_failure (cb : CircuitBreaker) (now : Int) : CircuitBreaker :=
  if CIRCUIT_BREAKER_FAILURES ≤ cb.failure_count + 1 then
    { cb with
      failure_count := cb.failure_count + 1
      last_failure_time := some now
      daily_attempts := cb.daily_attempts + 1
      is_open := true }
  else
    { cb with
      failure_count := cb.failure_count + 1
      last_failure_time := some now
      daily_attempts := cb.daily_attempts + 1 }

/-- A sequence of `record_failure` calls on a fresh breaker, one per listed
timestamp, with no intervening `record_success`. -/
def runFailures (ts : List Int) : CircuitBreaker :=
  ts.foldl record_failure initCircuitBreaker

/-- The three calls a caller can make on the breaker. -/
inductive CBCall where
  | attempt (now : Int)
  | success
  | failure (now : Int)

def cbStep (cb : CircuitBreaker) : CBCall → CircuitBreaker
  | .attempt now => (can_attempt cb now).2
  | .success => record_success cb
  | .failure now => record_failure cb now

/-- The breaker state after an arbitrary call sequence on a fresh breaker. -/
def runCalls (cs : List CBCall) : CircuitBreaker :=
  cs.foldl cbStep initCircuitBreaker

/-! ## Data fetch orchestration (`api_client.py`, `ESBDataApi.fetch`)

`fetch` first consults the circuit breaker; only if `can_attempt()` is true
does it run the login / download / parse phases.  `AttemptOutcome` abstracts
what those phases would produce; the error constructors mirror the `except`
arms of `fetch` (ValueError, ClientResponseError, network errors, other). -/

inductive FetchError where
  | circuitOpen
  | validationError
  | httpError (status : Nat)
  | networkError
  | unexpectedError
deriving DecidableEq, Repr

/-- What the login + download + parse phases would yield, were they run. -/
inductive AttemptOutcome where
  | ok (data : List (Int × ℚ))
  | fail (e : FetchError)

structure FetchResult where
  outcome : Except FetchError (List (Int × ℚ))
  breaker : CircuitBreaker
  attempted_network : Bool

/-- Model of `ESBDataApi.fetch`: check the breaker, fail fast with a `RuntimeError`
("Circuit breaker is open") when it denies, otherwise run the phases and
record the outcome.  `attempted_network` records whether any login or
download HTTP step was performed. -/
def fetch (cb : CircuitBreaker) (now : Int) (att : AttemptOutcome) : FetchResult :=
  if (can_attempt cb now).1 then
    match att with
    | .ok d => ⟨.ok d, record_success (can_attempt cb now).2, true⟩
    | .fail e => ⟨.error e, record_failure (can_attempt cb now).2 now, true⟩
  else ⟨.error .circuitOpen, (can_attempt cb now).2, false⟩

/-! ## CSV download size limits (`api_client.py`, `ESBDataApi.__fetch_data`)

Request 8.  The response body is modelled as its UTF-8 byte list; the
`Content-Length` header, when present, as a byte count.  Python compares
`size / (1024 * 1024) > MAX_CSV_SIZE_MB` with exact rational arithmetic
(integer / float with values far below 2^53), modelled in `ℚ`. -/

structure DownloadResponse where
  content_length : Option Nat
  body : List Nat

/-- The post-download size re-check of `__fetch_data`. -/
def fetch_data_body (body : List Nat) : Except String (List Nat) :=
  if ((body.length : ℚ) / (1024 * 1024) > (MAX_CSV_SIZE_MB : ℚ)) then
    .error "CSV data too large"
  else .ok body

/-- The `Content-Length` branch condition of `__fetch_data`: the check runs
only when the header is present (a present header of "0" is truthy in
Python and checked; an absent header skips the check). -/
def content_length_over : Option Nat → Bool
  | some cl => decide ((cl : ℚ) / (1024 * 1024) > (MAX_CSV_SIZE_MB : ℚ))
  | none => false

/-- Model of `ESBDataApi.__fetch_data`: the `Content-Length` check when the header is
present, then the actual-size check after download. -/
def fetch_data (resp : DownloadResponse) : Except String (List Nat) :=
  if content_length_over resp.content_length then .error "CSV response too large"
  else fetch_data_body resp.body


/-! ## CSV data model (`models.py`)

`ESBData` receives the `csv.DictReader` rows.  A row is modelled by the
values found under the two required columns (`CSV_COLUMN_DATE`,
`CSV_COLUMN_VALUE`); `none` models a missing key (Python `KeyError`).
`datetime.strptime` with `CSV_DATE_FORMAT` and `float` are standard-library
functions, modelled as explicit parse parameters `pd` / `pv` returning
`none` exactly when Python would raise `ValueError`. -/

structure CsvRow where
  date : Option String
  value : Option String
deriving DecidableEq, Repr

/-- Model of `ESBData._validate_csv_structure`: both required columns exist. -/
def validate_csv_structure (row : CsvRow) : Bool :=
  row.date.isSome && row.value.isSome

/-- One iteration of the loop in `ESBData._filter_and_parse_data`: read and
parse the date (a `KeyError`/`ValueError` skips the row), keep the row only
when the timestamp is at least the cutoff, then read and parse the value
(a failure again skips the row). -/
def parse_row (pd : String → Option Int) (pv : String → Option ℚ)
    (cutoff : Int) (row : CsvRow) : Option (Int × ℚ) :=
  match row.date with
  | none => none
  | some ds =>
    match pd ds with
    | none => none
    | some ts =>
      if cutoff ≤ ts then
        match row.value with
        | none => none
        | some vs => (pv vs).map (fun v => (ts, v))
      else none

/-- Model of `ESBData._filter_and_parse_data`. -/
def filter_and_parse_data (pd : String → Option Int) (pv : String → Option ℚ)
    (data : List CsvRow) (cutoff : Int) : List (Int × ℚ) :=
  data.filterMap (parse_row pd pv cutoff)

/-- Model of `ESBData.__init__`: validate the first row's structure when the
list is non-empty (`ValueError` on failure), then filter and parse with the
cutoff `datetime.now() - timedelta(days=MAX_DATA_AGE_DAYS)`. -/
def ESBData_init (pd : String → Option Int) (pv : String → Option ℚ)
    (cutoff : Int) (data : List CsvRow) : Except String (List (Int × ℚ)) :=
  match data with
  | [] => .ok (filter_and_parse_data pd pv [] cutoff)
  | r :: _ =>
    if validate_csv_structure r then .ok (filter_and_parse_data pd pv data cutoff)
    else .error "Invalid CSV structure"

/-- Model of `ESBData.__sum_data_since`. -/
def sum_data_since (readings : List (Int × ℚ)) (since : Int) : ℚ :=
  ((readings.filter (fun p => since ≤ p.1)).map Prod.snd).sum

/-- Property `ESBData.today`; the midnight computation
`now.replace(hour=0, minute=0, second=0, microsecond=0)` is calendar
arithmetic, kept abstract as `startOfDayFn`. -/
def today_usage (startOfDayFn : Int → Int) (readings : List (Int × ℚ)) (now : Int) : ℚ :=
  sum_data_since readings (startOfDayFn now)

/-- Property `ESBData.last_24_hours`. -/
def last_24_hours_usage (readings : List (Int × ℚ)) (now : Int) : ℚ :=
  sum_data_since readings (now - 86400)

/-- Property `ESBData.this_week` (midnight and `weekday()` kept abstract). -/
def this_week_usage (startOfDayFn : Int → Int) (weekdayFn : Int → Int)
    (readings : List (Int × ℚ)) (now : Int) : ℚ :=
  sum_data_since readings (startOfDayFn now - 86400 * weekdayFn now)

/-- Property `ESBData.last_7_days`. -/
def last_7_days_usage (readings : List (Int × ℚ)) (now : Int) : ℚ :=
  sum_data_since readings (now - 7 * 86400)

/-- Property `ESBData.this_month` (first-of-month midnight kept abstract). -/
def this_month_usage (startOfMonthFn : Int → Int) (readings : List (Int × ℚ)) (now : Int) : ℚ :=
  sum_data_since readings (startOfMonthFn now)

/-- Property `ESBData.last_30_days`. -/
def last_30_days_usage (readings : List (Int × ℚ)) (now : Int) : ℚ :=
  sum_data_since readings (now - 30 * 86400)

/-- A row both of whose fields parse and whose timestamp lies within the
retention window: exactly the rows `_filter_and_parse_data` keeps. -/
def valid_recent_row (pd : String → Option Int) (pv : String → Option ℚ)
    (cutoff : Int) (r : CsvRow) : Bool :=
  match r.date with
  | none => false
  | some ds =>
    match pd ds with
    | none => false
    | some ts =>
      decide (cutoff ≤ ts) &&
        (match r.value with
         | none => false
         | some vs => (pv vs).isSome)

/-- Phase 2 of `ESBDataApi.fetch`: download (with the size checks), convert
the CSV text to row dictionaries (`__csv_to_dict`, abstracted as `toRows`),
and construct `ESBData`.  An oversized download short-circuits before any
`ESBData` is produced. -/
def download_then_parse (pd : String → Option Int) (pv : String → Option ℚ)
    (cutoff : Int) (toRows : List Nat → List CsvRow) (resp : DownloadResponse) :
    Except String (List (Int × ℚ)) :=
  match fetch_data resp with
  | .error e => .error e
  | .ok body => ESBData_init pd pv cutoff (toRows body)

/-- Concrete stand-in for `datetime.strptime(_, CSV_DATE_FORMAT)` in
witnesses: "A" parses to an old timestamp (think "13-05-1990 10:30"), "B"
to a recent one, anything else raises. -/
def toyParseDate (s : String) : Option Int :=
  if s = "A" then some 0 else if s = "B" then some 100 else none

/-- Concrete stand-in for Python `float` in witnesses. -/
def toyParseValue (s : String) : Option ℚ :=
  if s = "1" then some 1 else if s = "2" then some 2 else none

/-- Concrete stand-in for `datetime.fromisoformat` in witnesses. -/
def toyParseIso (s : String) : Option Int :=
  if s = "x" then some 10 else none

/-! ## Session persistence (`session_manager.py`)

The stored JSON document is modelled by the fields `load_session` looks at:
`cookies = []` models a missing or empty cookie map (both falsy in Python),
`none` in `expires_at` and `mprn` models a missing or falsy key.
`datetime.fromisoformat` is the parse parameter `parseIso`;
`dt_util.utcnow()` is `now`. -/

structure SessionData where
  cookies : List (String × String)
  expires_at : Option String
  mprn : Option String
deriving DecidableEq, Repr

/-- What `_read_session_file` plus the first truthiness check can observe of
the file: an unreadable or corrupt file (the read returns Python `None`), a
JSON document that parses but is falsy, a truthy non-dict document (the
later attribute access raises, caught by the outer handler), or a
dictionary. -/
inductive ReadResult where
  | ioError
  | falsy
  | nonDict
  | doc (d : SessionData)
deriving DecidableEq, Repr

/-- Model of `SessionManager._is_session_valid`: required fields present and
truthy, expiry parses and is strictly in the future, stored MPRN matches. -/
def is_session_valid (parseIso : String → Option Int) (now : Int) (mprn : String)
    (d : SessionData) : Bool :=
  if d.cookies.isEmpty || d.expires_at.isNone then false
  else
    match d.expires_at with
    | none => false
    | some s =>
      match parseIso s with
      | none => false
      | some expires =>
        if expires ≤ now then false
        else if d.mprn ≠ some mprn then false
        else true

/-- Model of `SessionManager.load_session`, returning the loaded record (or
Python `None`) together with whether `clear_session()` deleted the stored
file.  The function never raises: every failure path returns `none`. -/
def load_session (parseIso : String → Option Int) (now : Int) (mprn : String)
    (file : Option ReadResult) : Option SessionData × Bool :=
  match file with
  | none => (none, false)
  | some .ioError => (none, false)
  | some .falsy => (none, false)
  | some .nonDict => (none, false)
  | some (.doc d) =>
    if is_session_valid parseIso now mprn d then (some d, false)
    else (none, true)

/-! ## Login step 3 and CAPTCHA detection (`api_client.py` request 3,
`coordinator.py` exception dispatch)

Python exception classes are modelled by `PyExc`.  Note that request 3 of
`ESBDataApi.__login` raises `ValueError` — the same class used for the
generic parse/shape failures — on CAPTCHA detection, while
`CaptchaRequiredException` (defined in `session_manager.py` with
`requires_user_action = True`) is raised nowhere in the integration. -/

def isPrefixList : List Char → List Char → Bool
  | [], _ => true
  | _ :: _, [] => false
  | a :: as, b :: bs => a == b && isPrefixList as bs

/-- Substring containment on character lists. -/
def containsSub : List Char → List Char → Bool
  | [], needle => needle.isEmpty
  | h :: t, needle => isPrefixList needle (h :: t) || containsSub t needle

/-- Python `in` on strings. -/
def containsSubstr (s sub : String) : Bool :=
  containsSub s.data sub.data

/-- The CAPTCHA marker check of request 3 in `ESBDataApi.__login`. -/
def check_captcha_markers (content : String) : Bool :=
  containsSubstr content "g-recaptcha-response" ||
  containsSubstr content "captcha.html" ||
  containsSubstr content "error_requiredFieldMissing\":\"Please confirm you are not a robot"

/-- The Python exception classes the coordinator distinguishes. -/
inductive PyExc where
  | valueError (msg : String)
  | captchaRequired (msg : String)
  | keyError (msg : String)
  | clientError
  | timeoutError
  | otherError
deriving DecidableEq, Repr

/-- The `CaptchaRequiredException.requires_user_action` marker: only that
exception class carries it. -/
def requires_user_action : PyExc → Bool
  | .captchaRequired _ => true
  | _ => false

/-- Message of the `ValueError` raised on CAPTCHA detection. -/
def captcha_value_error_msg : String :=
  "ESB Networks requires CAPTCHA verification. Automated login is currently not possible. This may be temporary rate limiting or a permanent security change."

/-- What the request-3 handling observes: the response text plus the outcome
of the external HTML parse (`BeautifulSoup`). -/
structure ConfirmPage where
  content : String
  has_auto_form : Bool
  fields_present : Bool
  fields_nonempty : Bool

/-- The request-3 body handling in `ESBDataApi.__login`: CAPTCHA markers
first, then the auto-submit form, its three hidden fields, and their
values. -/
def login_step3 (page : ConfirmPage) : Except PyExc Unit :=
  if check_captcha_markers page.content then
    .error (.valueError captcha_value_error_msg)
  else if !page.has_auto_form then
    .error (.valueError "Could not find auto-submit form in ESB response")
  else if !page.fields_present then
    .error (.valueError "Missing required form fields in ESB response")
  else if !page.fields_nonempty then
    .error (.valueError "Empty values in required form fields")
  else .ok ()

/-- The handler arms of `ESBDataUpdateCoordinator._async_update_data`. -/
inductive CoordinatorOutcome where
  | captchaHandled
  | updateFailedNetwork
  | updateFailedParse
  | updateFailedUnexpected
deriving DecidableEq, Repr

/-- The `except` dispatch of `_async_update_data`:
`CaptchaRequiredException` → notify and stop polling; `aiohttp.ClientError`
and `asyncio.TimeoutError` → network `UpdateFailed`; `ValueError` and
`KeyError` → "Data parsing error" `UpdateFailed`; anything else →
"Unexpected error" `UpdateFailed`. -/
def coordinator_dispatch : PyExc → CoordinatorOutcome
  | .captchaRequired _ => .captchaHandled
  | .clientError => .updateFailedNetwork
  | .timeoutError => .updateFailedNetwork
  | .valueError _ => .updateFailedParse
  | .keyError _ => .updateFailedParse
  | .otherError => .updateFailedUnexpected

/-- The CAPTCHA page fixture used by the repository's own tests
(`tests/test_api_errors.py`). -/
def captchaFixture : String :=
  "<html><div class=\"g-recaptcha-response\"></div></html>"

/-! ### Theorems -/

/-! ### Circuit breaker lemmas -/

theorem daily_reset_failure_count (cb : CircuitBreaker) (now : Int) :
    (daily_reset cb now).failure_count = cb.failure_count := by
  unfold daily_reset
  split
  · simp
  · split <;> simp

theorem daily_reset_is_open (cb : CircuitBreaker) (now : Int) :
    (daily_reset cb now).is_open = cb.is_open := by
  unfold daily_reset
  split
  · simp
  · split <;> simp

theorem daily_reset_last_failure (cb : CircuitBreaker) (now : Int) :
    (daily_reset cb now).last_failure_time = cb.last_failure_time := by
  unfold daily_reset
  split
  · simp
  · split <;> simp

theorem daily_reset_daily_le (cb : CircuitBreaker) (now : Int) :
    (daily_reset cb now).daily_attempts ≤ cb.daily_attempts := by
  unfold daily_reset
  split
  · simp
  · split <;> simp

theorem backoff_time_pos (n : Nat) : 0 < backoff_time n := by
  unfold backoff_time CIRCUIT_BREAKER_TIMEOUT CIRCUIT_BREAKER_MAX_TIMEOUT
  have h2 : (0:Int) < 2 ^ (n - 1) := pow_pos (by norm_num) _
  have : (0:Int) < 1800 * 2 ^ (n - 1) := by positivity
  omega

/-- When the gate answers `false` it hands the state back unchanged. -/
theorem can_attempt_gate_false (cb1 : CircuitBreaker) (now : Int) :
    (can_attempt_gate cb1 now).1 = false → (can_attempt_gate cb1 now).2 = cb1 := by
  unfold can_attempt_gate
  split
  · intro _; rfl
  · split
    · split
      · split
        · intro _; rfl
        · intro h; simp at h
      · intro h; simp at h
    · intro h; simp at h

/-- The gate preserves `failure_count`, `last_failure_time` and
`daily_attempts`, and never sets `is_open`. -/
theorem can_attempt_gate_snd (cb1 : CircuitBreaker) (now : Int) :
    (can_attempt_gate cb1 now).2.failure_count = cb1.failure_count ∧
    (can_attempt_gate cb1 now).2.last_failure_time = cb1.last_failure_time ∧
    ((can_attempt_gate cb1 now).2.is_open = true → cb1.is_open = true) ∧
    (can_attempt_gate cb1 now).2.daily_attempts = cb1.daily_attempts := by
  unfold can_attempt_gate
  split
  · exact ⟨rfl, rfl, fun h => h, rfl⟩
  · split
    · split
      · split
        · exact ⟨rfl, rfl, fun h => h, rfl⟩
        · exact ⟨rfl, rfl, fun h => by simp at h, rfl⟩
      · exact ⟨rfl, rfl, fun h => h, rfl⟩
    · exact ⟨rfl, rfl, fun h => h, rfl⟩

/-- On the `false` paths, `can_attempt` leaves `failure_count`, `is_open`
and `last_failure_time` untouched. -/
theorem can_attempt_false_preserves (cb : CircuitBreaker) (now : Int)
    (h : (can_attempt cb now).1 = false) :
    (can_attempt cb now).2.failure_count = cb.failure_count ∧
    (can_attempt cb now).2.is_open = cb.is_open ∧
    (can_attempt cb now).2.last_failure_time = cb.last_failure_time := by
  unfold can_attempt at *
  rw [can_attempt_gate_false (daily_reset cb now) now h]
  exact ⟨daily_reset_failure_count cb now, daily_reset_is_open cb now,
    daily_reset_last_failure cb now⟩

/-- Lemma: `can_attempt` never changes `failure_count` or `last_failure_time`,
and never sets `is_open`. -/
theorem can_attempt_snd (cb : CircuitBreaker) (now : Int) :
    (can_attempt cb now).2.failure_count = cb.failure_count ∧
    (can_attempt cb now).2.last_failure_time = cb.last_failure_time ∧
    ((can_attempt cb now).2.is_open = true → cb.is_open = true) := by
  obtain ⟨h1, h2, h3, _⟩ := can_attempt_gate_snd (daily_reset cb now) now
  unfold can_attempt
  exact ⟨h1.trans (daily_reset_failure_count cb now),
    h2.trans (daily_reset_last_failure cb now),
    fun h => (daily_reset_is_open cb now) ▸ h3 h⟩

/-- Field-level description of a single `record_failure` call. -/
theorem record_failure_fields (cb : CircuitBreaker) (t : Int) :
    (record_failure cb t).failure_count = cb.failure_count + 1 ∧
    (record_failure cb t).daily_attempts_reset_time = cb.daily_attempts_reset_time ∧
    (record_failure cb t).last_failure_time = some t ∧
    (record_failure cb t).daily_attempts = cb.daily_attempts + 1 ∧
    ((record_failure cb t).is_open = true ↔
      (cb.is_open = true ∨ CIRCUIT_BREAKER_FAILURES ≤ cb.failure_count + 1)) := by
  unfold record_failure
  split
  · rename_i h
    refine ⟨rfl, rfl, rfl, rfl, ?_⟩
    constructor
    · intro _; exact Or.inr h
    · intro _; rfl
  · rename_i h
    refine ⟨rfl, rfl, rfl, rfl, ?_⟩
    constructor
    · exact Or.inl
    · rintro (hh | hh)
      · exact hh
      · exact absurd hh h

/-- Folding `record_failure` over a list of times: the failure count grows by
the length, the daily reset stamp is untouched, and the breaker ends open
iff at least one failure was recorded and the final count reached the
threshold. -/
theorem foldl_record_failure (ts : List Int) (cb : CircuitBreaker) :
    (ts.foldl record_failure cb).failure_count = cb.failure_count + ts.length ∧
    (ts.foldl record_failure cb).daily_attempts_reset_time = cb.daily_attempts_reset_time ∧
    ((ts.foldl record_failure cb).is_open = true ↔
      (cb.is_open = true ∨ (1 ≤ ts.length ∧
        CIRCUIT_BREAKER_FAILURES ≤ cb.failure_count + ts.length))) := by
  induction ts generalizing cb with
  | nil => simp
  | cons t ts ih =>
    obtain ⟨s1, s2, s3, s4, s5⟩ := record_failure_fields cb t
    obtain ⟨i1, i2, i3⟩ := ih (record_failure cb t)
    simp only [List.foldl_cons, List.length_cons]
    refine ⟨?_, ?_, ?_⟩
    · rw [i1, s1]; omega
    · rw [i2, s2]
    · rw [i3, s5, s1]
      unfold CIRCUIT_BREAKER_FAILURES
      by_cases hopen : cb.is_open = true
      · simp [hopen]
      · simp [hopen]
        omega

/-- When the daily quota still has room and the circuit is open with a
recorded failure time, `can_attempt` reduces to the backoff comparison. -/
theorem can_attempt_open_spec (cb : CircuitBreaker) (now lf : Int)
    (hopen : cb.is_open = true) (hlast : cb.last_failure_time = some lf)
    (hdaily : cb.daily_attempts < MAX_AUTH_ATTEMPTS_PER_DAY) :
    can_attempt cb now =
      if now - lf < backoff_time cb.failure_count then (false, daily_reset cb now)
      else (true, { daily_reset cb now with is_open := false }) := by
  have h1 : ¬ MAX_AUTH_ATTEMPTS_PER_DAY ≤ (daily_reset cb now).daily_attempts := by
    have := daily_reset_daily_le cb now
    omega
  unfold can_attempt can_attempt_gate
  simp only [daily_reset_is_open, daily_reset_last_failure, daily_reset_failure_count,
    hopen, hlast, if_neg h1]
  simp

/-- With the circuit closed and the daily quota not exhausted,
`can_attempt` grants the attempt. -/
theorem can_attempt_closed_spec (cb : CircuitBreaker) (now : Int)
    (hopen : cb.is_open = false)
    (hdaily : cb.daily_attempts < MAX_AUTH_ATTEMPTS_PER_DAY) :
    (can_attempt cb now).1 = true := by
  have h1 : ¬ MAX_AUTH_ATTEMPTS_PER_DAY ≤ (daily_reset cb now).daily_attempts := by
    have := daily_reset_daily_le cb now
    omega
  unfold can_attempt can_attempt_gate
  simp only [daily_reset_is_open, hopen, if_neg h1]
  simp

/-- If the breaker has never had its daily stamp set, is open, and its last
failure happened at time `t`, then `can_attempt` at time `t` denies. -/
theorem can_attempt_at_failure_time (st : CircuitBreaker) (t : Int)
    (hreset : st.daily_attempts_reset_time = none)
    (hopen : st.is_open = true) (hlast : st.last_failure_time = some t) :
    (can_attempt st t).1 = false := by
  have hd : daily_reset st t =
      { st with daily_attempts := 0, daily_attempts_reset_time := some t } := by
    unfold daily_reset
    rw [hreset]
  have hb := backoff_time_pos st.failure_count
  unfold can_attempt
  rw [hd]
  unfold can_attempt_gate
  simp [hopen, hlast, MAX_AUTH_ATTEMPTS_PER_DAY, hb]

/-- C2: for every sequence of `record_failure()` calls on a fresh
`CircuitBreaker` with no intervening `record_success()`, `is_open` becomes
true exactly when the consecutive failure count reaches
`CIRCUIT_BREAKER_FAILURES = 3`, and a `can_attempt()` call made immediately
after that `record_failure()` returns false. -/
theorem claim_c2_threshold_opens (ts : List Int) (t : Int) :
    (record_failure (runFailures ts) t).failure_count = ts.length + 1 ∧
    ((record_failure (runFailures ts) t).is_open = true ↔
      CIRCUIT_BREAKER_FAILURES ≤ ts.length + 1) ∧
    (CIRCUIT_BREAKER_FAILURES ≤ ts.length + 1 →
      (can_attempt (record_failure (runFailures ts) t) t).1 = false) := by
  obtain ⟨f1, f2, f3⟩ := foldl_record_failure ts initCircuitBreaker
  have hinit : runFailures ts = ts.foldl record_failure initCircuitBreaker := rfl
  obtain ⟨r1, r2, r3, r4, r5⟩ := record_failure_fields (runFailures ts) t
  have hcount : (runFailures ts).failure_count = ts.length := by
    rw [hinit, f1]
    simp [initCircuitBreaker]
  have hopen : ((runFailures ts).is_open = true ↔
      (1 ≤ ts.length ∧ CIRCUIT_BREAKER_FAILURES ≤ ts.length)) := by
    rw [hinit, f3]
    simp [initCircuitBreaker]
  have hreset : (record_failure (runFailures ts) t).daily_attempts_reset_time = none := by
    rw [r2, hinit, f2]; rfl
  have hiff : ((record_failure (runFailures ts) t).is_open = true ↔
      CIRCUIT_BREAKER_FAILURES ≤ ts.length + 1) := by
    rw [r5, hopen, hcount]
    unfold CIRCUIT_BREAKER_FAILURES
    omega
  refine ⟨by rw [r1, hcount], hiff, fun hth => ?_⟩
  exact can_attempt_at_failure_time _ t hreset (hiff.mpr hth) r3

/-- Witness for C2 at the concrete sequence of three failures at time 0. -/
theorem claim_c2_witness :
    CIRCUIT_BREAKER_FAILURES ≤ [(0:Int), 0].length + 1 ∧
    (can_attempt (record_failure (runFailures [(0:Int), 0]) 0) 0).1 = false :=
  ⟨by decide, (claim_c2_threshold_opens [(0:Int), 0] 0).2.2 (by decide)⟩

/-- C3: for every failure count `n ≥ 1`, the backoff window `can_attempt()`
compares the elapsed time against equals
`min(CIRCUIT_BREAKER_TIMEOUT * 2^(n-1), CIRCUIT_BREAKER_MAX_TIMEOUT)`;
with base 1800 s and max 43200 s this gives 7200 s at `n = 3`, 14400 s at
`n = 4`, and saturates at 43200 s for every `n ≥ 6`. -/
theorem claim_c3_backoff_window (cb : CircuitBreaker) (now lf : Int) (n : Nat)
    (hn : 1 ≤ n) (hcount : cb.failure_count = n) (hopen : cb.is_open = true)
    (hlast : cb.last_failure_time = some lf)
    (hdaily : cb.daily_attempts < MAX_AUTH_ATTEMPTS_PER_DAY) :
    ((can_attempt cb now).1 = false ↔
      now - lf < min (CIRCUIT_BREAKER_TIMEOUT * 2 ^ (n - 1)) CIRCUIT_BREAKER_MAX_TIMEOUT) ∧
    backoff_time 3 = 7200 ∧ backoff_time 4 = 14400 ∧
    ∀ m : Nat, 6 ≤ m → backoff_time m = CIRCUIT_BREAKER_MAX_TIMEOUT := by
  refine ⟨?_, by decide, by decide, fun m hm => ?_⟩
  · rw [can_attempt_open_spec cb now lf hopen hlast hdaily, hcount]
    split
    · rename_i h
      simp only [backoff_time] at h
      simpa using h
    · rename_i h
      simp only [backoff_time] at h
      simpa using h
  · have h5 : (2:Int) ^ 5 ≤ 2 ^ (m - 1) := pow_le_pow_right₀ (by norm_num) (by omega)
    have hmul : (43200:Int) ≤ 1800 * 2 ^ (m - 1) := by
      have := mul_le_mul_of_nonneg_left h5 (by norm_num : (0:Int) ≤ 1800)
      norm_num at this
      linarith
    unfold backoff_time CIRCUIT_BREAKER_TIMEOUT CIRCUIT_BREAKER_MAX_TIMEOUT
    exact min_eq_right hmul

/-- Witness for C3 on an open breaker with 3 failures, 100 s after the
last failure. -/
theorem claim_c3_witness :
    ((can_attempt ⟨3, some 0, 0, none, true⟩ 100).1 = false ↔
      (100 : Int) - 0 < min (CIRCUIT_BREAKER_TIMEOUT * 2 ^ (3 - 1)) CIRCUIT_BREAKER_MAX_TIMEOUT) ∧
    backoff_time 3 = 7200 ∧ backoff_time 4 = 14400 ∧
    ∀ m : Nat, 6 ≤ m → backoff_time m = CIRCUIT_BREAKER_MAX_TIMEOUT :=
  claim_c3_backoff_window ⟨3, some 0, 0, none, true⟩ 100 0 3 (by decide) rfl rfl rfl (by decide)

/-- Counterexample to C4 as stated: after three failures at time 0 the
backoff window is 7200 s; at time 8000 the first `can_attempt()` returns
true (half-open recovery), but a second `can_attempt()` made before any
outcome is recorded ALSO returns true — the code does not limit the
half-open allowance to a single attempt. -/
theorem claim_c4_counterexample :
    (can_attempt (record_failure (record_failure (record_failure
        initCircuitBreaker 0) 0) 0) 8000).1 = true ∧
    (can_attempt (can_attempt (record_failure (record_failure (record_failure
        initCircuitBreaker 0) 0) 0) 8000).2 8000).1 = true ∧
    (can_attempt (record_failure (record_failure (record_failure
        initCircuitBreaker 0) 0) 0) 8000).2.failure_count = 3 := by
  decide

/-- C4 (amended): when the backoff window of an open breaker has elapsed and
the daily quota is not exhausted, the next `can_attempt()` returns true and
closes the circuit without resetting `failure_count` or
`last_failure_time`; the half-open allowance is however not limited to one
attempt: a further `can_attempt()` before any outcome is recorded also
returns true. -/
theorem claim_c4_half_open (cb : CircuitBreaker) (now lf : Int)
    (hopen : cb.is_open = true) (hlast : cb.last_failure_time = some lf)
    (hdaily : cb.daily_attempts < MAX_AUTH_ATTEMPTS_PER_DAY)
    (helapsed : backoff_time cb.failure_count ≤ now - lf) :
    (can_attempt cb now).1 = true ∧
    (can_attempt cb now).2.is_open = false ∧
    (can_attempt cb now).2.failure_count = cb.failure_count ∧
    (can_attempt cb now).2.last_failure_time = cb.last_failure_time ∧
    (can_attempt (can_attempt cb now).2 now).1 = true := by
  rw [can_attempt_open_spec cb now lf hopen hlast hdaily, if_neg (by omega)]
  refine ⟨rfl, rfl, daily_reset_failure_count cb now, daily_reset_last_failure cb now, ?_⟩
  apply can_attempt_closed_spec
  · rfl
  · show (daily_reset cb now).daily_attempts < MAX_AUTH_ATTEMPTS_PER_DAY
    have := daily_reset_daily_le cb now
    omega

/-- Witness for C4 (amended) on an open breaker with 3 failures at time 0,
checked at time 8000 ≥ 7200. -/
theorem claim_c4_witness :
    backoff_time 3 ≤ (8000 : Int) - 0 ∧
    ((can_attempt ⟨3, some 0, 0, none, true⟩ 8000).1 = true ∧
     (can_attempt ⟨3, some 0, 0, none, true⟩ 8000).2.is_open = false ∧
     (can_attempt ⟨3, some 0, 0, none, true⟩ 8000).2.failure_count = 3 ∧
     (can_attempt ⟨3, some 0, 0, none, true⟩ 8000).2.last_failure_time = some 0 ∧
     (can_attempt (can_attempt ⟨3, some 0, 0, none, true⟩ 8000).2 8000).1 = true) :=
  ⟨by decide, claim_c4_half_open ⟨3, some 0, 0, none, true⟩ 8000 0 rfl rfl (by decide) (by decide)⟩

/-- Counterexample to C5 as stated: reachable sequence `can_attempt` at 0,
then three `record_failure` at 0 (daily quota now exhausted), then
`can_attempt` at 8000 the same day.  The resulting state is still open even
though the elapsed time 8000 is at least the backoff window 7200: the
daily-quota check returns false before the open-circuit branch can close
the circuit. -/
theorem claim_c5_counterexample :
    (can_attempt (record_failure (record_failure (record_failure
        (can_attempt initCircuitBreaker 0).2 0) 0) 0) 8000).1 = false ∧
    (can_attempt (record_failure (record_failure (record_failure
        (can_attempt initCircuitBreaker 0).2 0) 0) 0) 8000).2.is_open = true ∧
    (can_attempt (record_failure (record_failure (record_failure
        (can_attempt initCircuitBreaker 0).2 0) 0) 0) 8000).2.failure_count = 3 ∧
    (can_attempt (record_failure (record_failure (record_failure
        (can_attempt initCircuitBreaker 0).2 0) 0) 0) 8000).2.last_failure_time = some 0 ∧
    backoff_time 3 ≤ (8000 : Int) - 0 := by
  decide

/-- C5 (amended): in every state reachable from a fresh breaker by any
sequence of `can_attempt`, `record_success` and `record_failure` calls,
`is_open` implies `failure_count ≥ CIRCUIT_BREAKER_FAILURES` and a recorded
`last_failure_time`.  The elapsed-time bound of the original claim holds at
the moment the circuit opens but an open circuit can outlive its backoff
window until a `can_attempt` call that passes the daily-quota check clears
it. -/
theorem claim_c5_open_invariant (cs : List CBCall)
    (h : (runCalls cs).is_open = true) :
    CIRCUIT_BREAKER_FAILURES ≤ (runCalls cs).failure_count ∧
    (runCalls cs).last_failure_time.isSome = true := by
  suffices H : ∀ (l : List CBCall) (cb : CircuitBreaker),
      (cb.is_open = true →
        CIRCUIT_BREAKER_FAILURES ≤ cb.failure_count ∧ cb.last_failure_time.isSome = true) →
      ((l.foldl cbStep cb).is_open = true →
        CIRCUIT_BREAKER_FAILURES ≤ (l.foldl cbStep cb).failure_count ∧
        (l.foldl cbStep cb).last_failure_time.isSome = true) by
    exact H cs initCircuitBreaker (fun hh => by simp [initCircuitBreaker] at hh) h
  intro l
  induction l with
  | nil => intro cb hP; exact hP
  | cons c l ih =>
    intro cb hP
    simp only [List.foldl_cons]
    apply ih
    cases c with
    | attempt now =>
      simp only [cbStep]
      intro hh
      obtain ⟨a1, a2, a3⟩ := can_attempt_snd cb now
      obtain ⟨hc, hl⟩ := hP (a3 hh)
      rw [a1, a2]
      exact ⟨hc, hl⟩
    | success =>
      simp only [cbStep, record_success]
      intro hh
      simp at hh
    | failure now =>
      simp only [cbStep]
      intro hh
      obtain ⟨r1, r2, r3, r4, r5⟩ := record_failure_fields cb now
      rw [r1, r3]
      refine ⟨?_, rfl⟩
      rcases r5.mp hh with hcase | hcase
      · obtain ⟨hc, _⟩ := hP hcase
        omega
      · omega

/-- Witness for C5 (amended) on the reachable open state after three
failures. -/
theorem claim_c5_witness :
    (runCalls [.failure 0, .failure 0, .failure 0]).is_open = true ∧
    (CIRCUIT_BREAKER_FAILURES ≤ (runCalls [.failure 0, .failure 0, .failure 0]).failure_count ∧
     (runCalls [.failure 0, .failure 0, .failure 0]).last_failure_time.isSome = true) :=
  ⟨by decide, claim_c5_open_invariant [.failure 0, .failure 0, .failure 0] (by decide)⟩

/-- The Python float comparison `n / (1024*1024) > 10` over a byte count is
the integer comparison against `10 * 1024 * 1024`. -/
theorem size_check_bytes (n : Nat) :
    ((n : ℚ) / (1024 * 1024) > (MAX_CSV_SIZE_MB : ℚ)) ↔ 10 * 1024 * 1024 < n := by
  unfold MAX_CSV_SIZE_MB
  rw [gt_iff_lt, lt_div_iff₀ (by norm_num : (0:ℚ) < 1024 * 1024)]
  push_cast
  constructor
  · intro h
    exact_mod_cast h
  · intro h
    exact_mod_cast h
/-- C6: whenever `can_attempt()` returns false, `fetch()` fails fast with
the temporarily-unavailable error (`RuntimeError`, modelled `circuitOpen`)
without performing any login or download HTTP step, and the skip is not
recorded as a fetch failure: `failure_count`, `is_open` and
`last_failure_time` are unchanged by the fetch call. -/
theorem claim_c6_fail_fast (cb : CircuitBreaker) (now : Int) (att : AttemptOutcome)
    (h : (can_attempt cb now).1 = false) :
    (fetch cb now att).outcome = .error .circuitOpen ∧
    (fetch cb now att).attempted_network = false ∧
    (fetch cb now att).breaker.failure_count = cb.failure_count ∧
    (fetch cb now att).breaker.is_open = cb.is_open ∧
    (fetch cb now att).breaker.last_failure_time = cb.last_failure_time := by
  obtain ⟨p1, p2, p3⟩ := can_attempt_false_preserves cb now h
  unfold fetch
  rw [h]
  exact ⟨rfl, rfl, p1, p2, p3⟩

/-- Witness for C6 on an open breaker 100 s after its third failure. -/
theorem claim_c6_witness :
    (can_attempt ⟨3, some 0, 3, some 0, true⟩ 100).1 = false ∧
    ((fetch ⟨3, some 0, 3, some 0, true⟩ 100 (.ok [])).outcome = .error .circuitOpen ∧
     (fetch ⟨3, some 0, 3, some 0, true⟩ 100 (.ok [])).attempted_network = false ∧
     (fetch ⟨3, some 0, 3, some 0, true⟩ 100 (.ok [])).breaker.failure_count = 3 ∧
     (fetch ⟨3, some 0, 3, some 0, true⟩ 100 (.ok [])).breaker.is_open = true ∧
     (fetch ⟨3, some 0, 3, some 0, true⟩ 100 (.ok [])).breaker.last_failure_time = some 0) :=
  ⟨by decide, claim_c6_fail_fast ⟨3, some 0, 3, some 0, true⟩ 100 (.ok []) (by decide)⟩


/-- Length of a `filterMap` as a count of rows on which the function
succeeds. -/
theorem length_filterMap_eq_countP {α β : Type} (f : α → Option β) (l : List α) :
    (l.filterMap f).length = l.countP (fun a => (f a).isSome) := by
  induction l with
  | nil => rfl
  | cons a l ih =>
    cases hf : f a <;>
      simp [List.filterMap_cons, hf, List.countP_cons, ih]

/-- A parsed row is kept exactly when it is valid and recent. -/
theorem parse_row_isSome (pd : String → Option Int) (pv : String → Option ℚ)
    (cutoff : Int) (r : CsvRow) :
    (parse_row pd pv cutoff r).isSome = valid_recent_row pd pv cutoff r := by
  cases hd : r.date with
  | none => simp [parse_row, valid_recent_row, hd]
  | some ds =>
    cases hp : pd ds with
    | none => simp [parse_row, valid_recent_row, hd, hp]
    | some ts =>
      cases hv : r.value with
      | none => simp [parse_row, valid_recent_row, hd, hp, hv]
      | some vs =>
        by_cases hc : cutoff ≤ ts
        · cases hpv : pv vs <;>
            simp [parse_row, valid_recent_row, hd, hp, hv, hpv, hc]
        · simp [parse_row, valid_recent_row, hd, hp, hv, hc]

/-- Counterexample to C8 as stated: a well-formed two-column CSV with one
valid row (its date and value both parse: N = 1, M = 0) whose timestamp is
older than the retention cutoff yields an empty Reading collection (0
entries, not N = 1).  In the real parser this is any row such as
"13-05-1990 10:30" — parseable, but more than `MAX_DATA_AGE_DAYS` old. -/
theorem claim_c8_counterexample :
    ESBData_init toyParseDate toyParseValue 10 [CsvRow.mk (some "A") (some "1")] =
      .ok ([] : List (Int × ℚ)) ∧
    toyParseDate "A" = some 0 ∧ toyParseValue "1" = some 1 :=
  ⟨rfl, rfl, rfl⟩

/-- C8 (amended): for every well-formed two-column CSV input, construction
never raises, rows with unparseable dates or values are skipped, and the
Reading count equals the number of rows whose date and value parse AND
whose timestamp lies within the retention window — parseable rows older
than the cutoff are dropped as well. -/
theorem claim_c8_row_filtering (pd : String → Option Int) (pv : String → Option ℚ)
    (cutoff : Int) (data : List CsvRow)
    (hcols : ∀ r ∈ data, validate_csv_structure r = true) :
    ESBData_init pd pv cutoff data = .ok (filter_and_parse_data pd pv data cutoff) ∧
    (filter_and_parse_data pd pv data cutoff).length =
      data.countP (valid_recent_row pd pv cutoff) := by
  constructor
  · cases data with
    | nil => rfl
    | cons r rs =>
      simp only [ESBData_init]
      rw [if_pos (hcols r (by simp))]
  · unfold filter_and_parse_data
    rw [length_filterMap_eq_countP]
    congr 1
    funext r
    exact parse_row_isSome pd pv cutoff r

/-- Witness for C8 (amended): three rows — recent and parseable, old but
parseable, unparseable date — give exactly one Reading. -/
theorem claim_c8_witness :
    (∀ r ∈ [CsvRow.mk (some "B") (some "1"), CsvRow.mk (some "A") (some "1"),
        CsvRow.mk (some "C") (some "2")], validate_csv_structure r = true) ∧
    (ESBData_init toyParseDate toyParseValue 10
        [CsvRow.mk (some "B") (some "1"), CsvRow.mk (some "A") (some "1"),
         CsvRow.mk (some "C") (some "2")] =
      .ok (filter_and_parse_data toyParseDate toyParseValue
        [CsvRow.mk (some "B") (some "1"), CsvRow.mk (some "A") (some "1"),
         CsvRow.mk (some "C") (some "2")] 10) ∧
     (filter_and_parse_data toyParseDate toyParseValue
        [CsvRow.mk (some "B") (some "1"), CsvRow.mk (some "A") (some "1"),
         CsvRow.mk (some "C") (some "2")] 10).length =
      ([CsvRow.mk (some "B") (some "1"), CsvRow.mk (some "A") (some "1"),
        CsvRow.mk (some "C") (some "2")]).countP
        (valid_recent_row toyParseDate toyParseValue 10)) :=
  ⟨by decide, claim_c8_row_filtering toyParseDate toyParseValue 10 _ (by decide)⟩

/-- C10: `ESBData` construction raises `ValueError` iff the input row list
is non-empty and its first row lacks a required column; an empty input is
accepted and every window aggregate equals 0.0; rows after the first are
never structure-checked, so a later row missing a required column is
silently skipped rather than rejected. -/
theorem claim_c10_structure_validation :
    (∀ (pd : String → Option Int) (pv : String → Option ℚ) (cutoff : Int),
      ESBData_init pd pv cutoff [] = .ok []) ∧
    (∀ (startOfDayFn weekdayFn startOfMonthFn : Int → Int) (now : Int),
      today_usage startOfDayFn [] now = 0 ∧
      last_24_hours_usage [] now = 0 ∧
      this_week_usage startOfDayFn weekdayFn [] now = 0 ∧
      last_7_days_usage [] now = 0 ∧
      this_month_usage startOfMonthFn [] now = 0 ∧
      last_30_days_usage [] now = 0) ∧
    (∀ (pd : String → Option Int) (pv : String → Option ℚ) (cutoff : Int)
        (r : CsvRow) (rs : List CsvRow),
      (∃ msg, ESBData_init pd pv cutoff (r :: rs) = .error msg) ↔
        validate_csv_structure r = false) ∧
    (∀ (pd : String → Option Int) (pv : String → Option ℚ) (cutoff : Int)
        (row : CsvRow), row.date = none ∨ row.value = none →
      parse_row pd pv cutoff row = none) := by
  refine ⟨fun pd pv cutoff => rfl,
    fun f g h now => ⟨rfl, rfl, rfl, rfl, rfl, rfl⟩, ?_, ?_⟩
  · intro pd pv cutoff r rs
    constructor
    · rintro ⟨msg, hmsg⟩
      by_cases hv : validate_csv_structure r = true
      · simp only [ESBData_init] at hmsg
        rw [if_pos hv] at hmsg
        simp at hmsg
      · simpa using hv
    · intro hv
      refine ⟨"Invalid CSV structure", ?_⟩
      simp only [ESBData_init]
      rw [if_neg (by simp [hv])]
  · intro pd pv cutoff row hmiss
    rcases hmiss with h | h
    · simp [parse_row, h]
    · cases hd : row.date with
      | none => simp [parse_row, hd]
      | some ds =>
        cases hp : pd ds with
        | none => simp [parse_row, hd, hp]
        | some ts => simp [parse_row, hd, hp, h]

/-- Witness for C10 on a row with a missing date column. -/
theorem claim_c10_witness :
    ((CsvRow.mk none (some "1")).date = none ∨ (CsvRow.mk none (some "1")).value = none) ∧
    parse_row toyParseDate toyParseValue 0 (CsvRow.mk none (some "1")) = none :=
  ⟨Or.inl rfl,
    claim_c10_structure_validation.2.2.2 toyParseDate toyParseValue 0
      (CsvRow.mk none (some "1")) (Or.inl rfl)⟩

/-- C9: during the CSV export download (request 8), a `Content-Length`
header over the 10 MB limit, or an actual downloaded byte length over the
limit, raises the terminal `ValueError` and no `ESBData` is produced from
that response; a body within the limit is returned unchanged. -/
theorem claim_c9_size_limit (resp : DownloadResponse) :
    ((∃ cl, resp.content_length = some cl ∧ 10 * 1024 * 1024 < cl) ∨
        10 * 1024 * 1024 < resp.body.length →
      (∃ e, fetch_data resp = .error e) ∧
      ∀ (pd : String → Option Int) (pv : String → Option ℚ) (cutoff : Int)
          (toRows : List Nat → List CsvRow),
        ∃ e, download_then_parse pd pv cutoff toRows resp = .error e) ∧
    ((∀ cl, resp.content_length = some cl → cl ≤ 10 * 1024 * 1024) →
      resp.body.length ≤ 10 * 1024 * 1024 →
      fetch_data resp = .ok resp.body) := by
  have hbody_err : 10 * 1024 * 1024 < resp.body.length →
      ∃ e, fetch_data_body resp.body = .error e := by
    intro h
    unfold fetch_data_body
    rw [if_pos ((size_check_bytes _).mpr h)]
    exact ⟨_, rfl⟩
  have hover : ∀ cl : Nat, content_length_over (some cl) = true ↔ 10 * 1024 * 1024 < cl := by
    intro cl
    simp only [content_length_over, decide_eq_true_eq]
    exact size_check_bytes cl
  have herr : ((∃ cl, resp.content_length = some cl ∧ 10 * 1024 * 1024 < cl) ∨
      10 * 1024 * 1024 < resp.body.length) → ∃ e, fetch_data resp = .error e := by
    rintro (⟨cl, hcl, hgt⟩ | hbody)
    · unfold fetch_data
      rw [hcl, if_pos ((hover cl).mpr hgt)]
      exact ⟨_, rfl⟩
    · unfold fetch_data
      by_cases hb : content_length_over resp.content_length = true
      · rw [if_pos hb]
        exact ⟨_, rfl⟩
      · rw [if_neg hb]
        exact hbody_err hbody
  constructor
  · intro hover
    refine ⟨herr hover, fun pd pv cutoff toRows => ?_⟩
    obtain ⟨e, he⟩ := herr hover
    unfold download_then_parse
    rw [he]
    exact ⟨e, rfl⟩
  · intro hcl hbody
    have hb : ¬((resp.body.length : ℚ) / (1024 * 1024) > (MAX_CSV_SIZE_MB : ℚ)) := by
      rw [size_check_bytes]
      omega
    have hno : content_length_over resp.content_length = false := by
      cases hc : resp.content_length with
      | none => rfl
      | some cl =>
        have h1 := hcl cl hc
        simp only [content_length_over, decide_eq_false_iff_not]
        rw [size_check_bytes]
        omega
    unfold fetch_data
    rw [hno]
    unfold fetch_data_body
    rw [if_neg hb]
    rfl

/-- Witness for C9: a 10 MB + 1 byte header is rejected; a small body is
returned unchanged. -/
theorem claim_c9_witness :
    (∃ e, fetch_data ⟨some 10485761, []⟩ = .error e) ∧
    fetch_data ⟨some 100, [0, 1]⟩ = .ok [0, 1] :=
  ⟨((claim_c9_size_limit ⟨some 10485761, []⟩).1 (Or.inl ⟨10485761, rfl, by norm_num⟩)).1,
   (claim_c9_size_limit ⟨some 100, [0, 1]⟩).2
     (fun cl h => by simp at h; omega) (by simp)⟩

/-- Counterexample to C7 as stated: a session file that exists but holds
corrupt JSON is found-but-invalid, yet `load_session` returns `None`
WITHOUT deleting the stored file — `clear_session()` is reached only when
the document was read successfully and failed validation. -/
theorem claim_c7_counterexample :
    load_session (fun _ => none) 0 "12345678901" (some .ioError) = (none, false) :=
  rfl

/-- C7 (amended): `load_session` returns the stored record iff the file
exists, reads as a truthy JSON dictionary, its cookie map is non-empty, its
`expires_at` parses and lies strictly in the future, and its stored MPRN
equals the manager's; in every other case it returns `None` and never
raises.  The stored file is deleted only when the document was read as a
truthy dictionary and failed validation; unreadable, corrupt, falsy or
non-dict files are left in place. -/
theorem claim_c7_load_validity (parseIso : String → Option Int) (now : Int)
    (mprn : String) (file : Option ReadResult) :
    (∀ d, (load_session parseIso now mprn file).1 = some d ↔
      (file = some (.doc d) ∧ is_session_valid parseIso now mprn d = true)) ∧
    ((load_session parseIso now mprn file).2 = true ↔
      (∃ d, file = some (.doc d) ∧ is_session_valid parseIso now mprn d = false)) ∧
    (∀ d, is_session_valid parseIso now mprn d = true ↔
      (d.cookies ≠ [] ∧ ∃ s expires, d.expires_at = some s ∧
        parseIso s = some expires ∧ now < expires ∧ d.mprn = some mprn)) := by
  refine ⟨?_, ?_, ?_⟩
  · intro d
    match file with
    | none => simp [load_session]
    | some .ioError => simp [load_session]
    | some .falsy => simp [load_session]
    | some .nonDict => simp [load_session]
    | some (.doc d0) =>
      by_cases hv : is_session_valid parseIso now mprn d0 = true
      · simp only [load_session, if_pos hv, Option.some.injEq, ReadResult.doc.injEq]
        constructor
        · rintro rfl
          exact ⟨rfl, hv⟩
        · rintro ⟨rfl, _⟩
          rfl
      · simp only [load_session, if_neg hv]
        constructor
        · rintro h
          simp at h
        · rintro ⟨heq, hval⟩
          injection heq with heq2
          injection heq2 with heq3
          subst heq3
          exact absurd hval hv
  · match file with
    | none => simp [load_session]
    | some .ioError => simp [load_session]
    | some .falsy => simp [load_session]
    | some .nonDict => simp [load_session]
    | some (.doc d0) =>
      by_cases hv : is_session_valid parseIso now mprn d0 = true
      · simp [load_session, if_pos hv, hv]
      · simp only [load_session, if_neg hv]
        constructor
        · intro _
          exact ⟨d0, rfl, by simpa using hv⟩
        · intro _
          trivial
  · intro d
    constructor
    · intro hvalid
      by_cases hcE : d.cookies.isEmpty
      · exfalso
        simp [is_session_valid, hcE] at hvalid
      · cases he : d.expires_at with
        | none =>
          exfalso
          simp [is_session_valid, he, hcE] at hvalid
        | some s =>
          cases hp : parseIso s with
          | none =>
            exfalso
            simp [is_session_valid, he, hcE, hp] at hvalid
          | some expires =>
            refine ⟨by simpa [List.isEmpty_iff] using hcE, s, expires, rfl, hp, ?_, ?_⟩
            · by_contra hnot
              have hexp : expires ≤ now := by omega
              simp [is_session_valid, he, hcE, hp, hexp] at hvalid
            · by_contra hm
              have hm2 : d.mprn ≠ some mprn := hm
              simp [is_session_valid, he, hcE, hp, hm2] at hvalid
    · rintro ⟨hcne, s, expires, he, hp, hlt, hm⟩
      have hcE : d.cookies.isEmpty = false := by
        simp [List.isEmpty_iff, hcne]
      have hexp : ¬ expires ≤ now := by omega
      simp [is_session_valid, he, hp, hcE, hexp, hm]

/-- Witness for C7 (amended): a valid stored record is returned. -/
theorem claim_c7_witness :
    (load_session toyParseIso 5 "m"
        (some (.doc ⟨[("a", "b")], some "x", some "m"⟩))).1 =
      some ⟨[("a", "b")], some "x", some "m"⟩ :=
  ((claim_c7_load_validity toyParseIso 5 "m"
      (some (.doc ⟨[("a", "b")], some "x", some "m"⟩))).1
    ⟨[("a", "b")], some "x", some "m"⟩).mpr ⟨rfl, by decide⟩

/-- C1 (code bug): on the CAPTCHA fixture from the repository's own tests,
request 3 of `__login` detects the CAPTCHA markers but raises plain
`ValueError` — the very parse/shape error class used for missing-form
failures — and NOT `CaptchaRequiredException`: the raised error carries no
requires-user-action flag and the coordinator routes it to the generic
"Data parsing error" `UpdateFailed` arm instead of the CAPTCHA handler
(`tests/test_api.py::test_login_captcha_detection` expects
`CaptchaRequiredException` here and the coordinator's dedicated handler is
unreachable from this code path). -/
theorem claim_c1_captcha_raises_valueerror :
    check_captcha_markers captchaFixture = true ∧
    login_step3 ⟨captchaFixture, false, false, false⟩ =
      .error (.valueError captcha_value_error_msg) ∧
    requires_user_action (.valueError captcha_value_error_msg) = false ∧
    coordinator_dispatch (.valueError captcha_value_error_msg) = .updateFailedParse ∧
    coordinator_dispatch (.valueError captcha_value_error_msg) ≠ .captchaHandled :=
  ⟨rfl, rfl, rfl, rfl, by decide⟩
